import Mathlib

/-!
Verification of the collision-tracker logic of the `glb` repository
(`src/index.ts`) against its specification.

The per-tick logic is embedded shallowly over `ℚ`:

* the moving body (`xPosition`, `speed`, lines 184-187) and its per-tick
  update (lines 210-214 of `animateObjects`) become `advance`;
* the three.js types `Vector3`, `Matrix3`, `Matrix4`, `Sphere` and `OBB`
  used by the program become Lean structures with `ℚ` fields, and the
  library operations the program calls (`Matrix4.makeRotationAxis`,
  `Matrix3.setFromMatrix4`, `Matrix3.multiply`, `Vector3.applyMatrix4`,
  `OBB.applyMatrix4`, `OBB.clampPoint`, `OBB.intersectsSphere`,
  `Sphere` center copy) are translated from the three.js sources they
  delegate to.

All numeric literals appearing in the claims (0.5, 150, 150.5, 5, 5.5, 6, 1)
are exactly representable both in `ℚ` and in IEEE doubles, and the operations
involved stay exact on them, so the rational embedding is faithful on the
inputs the claims speak about.  The 0.001-radian incremental rotation is
handled parametrically: `Math.cos(0.001)` and `Math.sin(0.001)` enter the
matrices only as opaque scalar values, so the matrix constructions are
stated for arbitrary cosine/sine parameters `c`, `s`.
-/

namespace Glb

/-- State of the moving body: the script-level variables `xPosition`
(line 185, initially 0) and `speed` (line 187, initially 0.5). -/
structure Body where
  xPosition : ℚ
  speed : ℚ
  deriving DecidableEq, Repr

/-- One per-tick update of the moving body, lines 210-214 of
`animateObjects`:

    xPosition += speed;
    if (xPosition > 150 || xPosition < -150) {
      speed *= -1;
    }

The test uses the already-incremented `xPosition`; the position itself is
stored unclamped. -/
def advance (b : Body) : Body :=
  let x := b.xPosition + b.speed
  if x > 150 ∨ x < -150 then
    { xPosition := x, speed := b.speed * (-1) }
  else
    { xPosition := x, speed := b.speed }

/-- Initial body state: `xPosition = 0`, `speed = 0.5` (lines 185, 187). -/
def initialBody : Body := { xPosition := 0, speed := 1/2 }

/-- Body state after `n` animation ticks. -/
def bodyAtTick (n : ℕ) : Body := advance^[n] initialBody

/-- Inductive invariant of the moving body: the speed is ±0.5, the position
stays within one half-step of the ±150 bounds, and an out-of-range position
can only be held while moving back towards the range (the bounce has
already been applied). -/
def BodyInv (b : Body) : Prop :=
  (b.speed = 1/2 ∨ b.speed = -(1/2)) ∧
  -(301/2) ≤ b.xPosition ∧ b.xPosition ≤ 301/2 ∧
  (150 < b.xPosition → b.speed = -(1/2)) ∧
  (b.xPosition < -150 → b.speed = 1/2)

/-- Rational embedding of `THREE.Vector3`. -/
structure Vector3 where
  x : ℚ
  y : ℚ
  z : ℚ
  deriving DecidableEq, Repr

/-- `Vector3.add`: componentwise sum. -/
def Vector3.add (a b : Vector3) : Vector3 :=
  { x := a.x + b.x, y := a.y + b.y, z := a.z + b.z }

/-- `Vector3.subVectors`: componentwise difference. -/
def Vector3.sub (a b : Vector3) : Vector3 :=
  { x := a.x - b.x, y := a.y - b.y, z := a.z - b.z }

/-- `Vector3.multiplyScalar`. -/
def Vector3.smul (v : Vector3) (k : ℚ) : Vector3 :=
  { x := v.x * k, y := v.y * k, z := v.z * k }

/-- `Vector3.dot`. -/
def Vector3.dot (a b : Vector3) : ℚ :=
  a.x * b.x + a.y * b.y + a.z * b.z

/-- `Vector3.distanceToSquared`: `dx*dx + dy*dy + dz*dz` with
`dx = this.x - v.x` and so on. -/
def Vector3.distanceToSquared (a b : Vector3) : ℚ :=
  (a.x - b.x) * (a.x - b.x) + (a.y - b.y) * (a.y - b.y) +
    (a.z - b.z) * (a.z - b.z)

/-- `MathUtils.clamp(value, min, max) = Math.max(min, Math.min(max, value))`. -/
def clampQ (value lo hi : ℚ) : ℚ := max lo (min hi value)

/-- Rational embedding of `THREE.Matrix3`, fields named row-column as in
three.js' `Matrix3.set` argument order (the library stores them
column-major in `elements`). -/
structure Matrix3 where
  n11 : ℚ
  n12 : ℚ
  n13 : ℚ
  n21 : ℚ
  n22 : ℚ
  n23 : ℚ
  n31 : ℚ
  n32 : ℚ
  n33 : ℚ
  deriving DecidableEq, Repr

/-- First column of the matrix: `extractBasis`' `xAxis`
(`setFromMatrix3Column(this, 0)`). -/
def Matrix3.colX (m : Matrix3) : Vector3 := { x := m.n11, y := m.n21, z := m.n31 }

/-- Second column of the matrix: `extractBasis`' `yAxis`. -/
def Matrix3.colY (m : Matrix3) : Vector3 := { x := m.n12, y := m.n22, z := m.n32 }

/-- Third column of the matrix: `extractBasis`' `zAxis`. -/
def Matrix3.colZ (m : Matrix3) : Vector3 := { x := m.n13, y := m.n23, z := m.n33 }

/-- `Matrix3.multiply(m)`, i.e. `multiplyMatrices(this, m)`: the standard
matrix product `this * m` (right multiplication by `m`). -/
def Matrix3.multiply (a b : Matrix3) : Matrix3 :=
  { n11 := a.n11 * b.n11 + a.n12 * b.n21 + a.n13 * b.n31
    n12 := a.n11 * b.n12 + a.n12 * b.n22 + a.n13 * b.n32
    n13 := a.n11 * b.n13 + a.n12 * b.n23 + a.n13 * b.n33
    n21 := a.n21 * b.n11 + a.n22 * b.n21 + a.n23 * b.n31
    n22 := a.n21 * b.n12 + a.n22 * b.n22 + a.n23 * b.n32
    n23 := a.n21 * b.n13 + a.n22 * b.n23 + a.n23 * b.n33
    n31 := a.n31 * b.n11 + a.n32 * b.n21 + a.n33 * b.n31
    n32 := a.n31 * b.n12 + a.n32 * b.n22 + a.n33 * b.n32
    n33 := a.n31 * b.n13 + a.n32 * b.n23 + a.n33 * b.n33 }

/-- The identity `Matrix3` (`new THREE.Matrix3()`). -/
def Matrix3.identityM : Matrix3 :=
  { n11 := 1, n12 := 0, n13 := 0
    n21 := 0, n22 := 1, n23 := 0
    n31 := 0, n32 := 0, n33 := 1 }

/-- Rational embedding of `THREE.Sphere` as used by the program: a center
and a radius (line 71 creates it with center `(0,0,0)` and radius 1). -/
structure Sphere where
  center : Vector3
  radius : ℚ
  deriving DecidableEq, Repr

/-- Rational embedding of the `OBB` type of
`three/examples/jsm/math/OBB`: center, half sizes, rotation matrix. -/
structure OBB where
  center : Vector3
  halfSize : Vector3
  rotation : Matrix3
  deriving DecidableEq, Repr

/-- `OBB.clampPoint(point)` from `three/examples/jsm/math/OBB`:

    v1.subVectors( point, this.center );
    this.rotation.extractBasis( xAxis, yAxis, zAxis );
    result.copy( this.center );
    const x = MathUtils.clamp( v1.dot( xAxis ), - halfSize.x, halfSize.x );
    result.add( xAxis.multiplyScalar( x ) );
    ... (same for y and z)
-/
def OBB.clampPoint (b : OBB) (point : Vector3) : Vector3 :=
  let v1 := point.sub b.center
  let xAxis := b.rotation.colX
  let yAxis := b.rotation.colY
  let zAxis := b.rotation.colZ
  let cx := clampQ (v1.dot xAxis) (-b.halfSize.x) b.halfSize.x
  let cy := clampQ (v1.dot yAxis) (-b.halfSize.y) b.halfSize.y
  let cz := clampQ (v1.dot zAxis) (-b.halfSize.z) b.halfSize.z
  ((b.center.add (xAxis.smul cx)).add (yAxis.smul cy)).add (zAxis.smul cz)

/-- `OBB.intersectsSphere(sphere)` from `three/examples/jsm/math/OBB`
(the call on line 225 of `src/index.ts`):

    this.clampPoint( sphere.center, closestPoint );
    return closestPoint.distanceToSquared( sphere.center )
             <= ( sphere.radius * sphere.radius );
-/
def OBB.intersectsSphere (b : OBB) (s : Sphere) : Bool :=
  decide ((b.clampPoint s.center).distanceToSquared s.center ≤
    s.radius * s.radius)

/-- Line 223 of `src/index.ts`:
`sphere.userData.boundingSphere.center.copy(sphere.position)`: the bounding
sphere's center is set to the owning body's current position; nothing else
of the sphere is touched. -/
def updateSphere (s : Sphere) (ownerPosition : Vector3) : Sphere :=
  { s with center := ownerPosition }

/-- The per-tick state of the moving sphere subsystem: the scalar body
(`xPosition`/`speed`), the mesh position `sphere.position`, and the
bounding sphere stored in `sphere.userData.boundingSphere`. -/
structure SphereSystem where
  body : Body
  spherePos : Vector3
  boundingSphere : Sphere
  deriving DecidableEq, Repr

/-- Initial sphere subsystem state from `initializeScene`: body at 0 with
speed 0.5; `sphere.position.y = 30` (line 73) with x and z left at 0; the
bounding sphere created on line 71 with center (0,0,0) and radius 1. -/
def initialSphereSystem : SphereSystem :=
  { body := initialBody
    spherePos := { x := 0, y := 30, z := 0 }
    boundingSphere := { center := { x := 0, y := 0, z := 0 }, radius := 1 } }

/-- One tick of the sphere subsystem, from `animateObjects`: advance the
body, write the new x into `sphere.position.x` (line 215), then copy the
mesh position into the bounding sphere center (line 223). -/
def sphereSystemTick (st : SphereSystem) : SphereSystem :=
  let b := advance st.body
  let pos : Vector3 := { x := b.xPosition, y := st.spherePos.y, z := st.spherePos.z }
  { body := b, spherePos := pos
    boundingSphere := updateSphere st.boundingSphere pos }

/-- Rational embedding of `THREE.Matrix4`, fields named row-column as in
three.js' `Matrix4.set` argument order. -/
structure Matrix4 where
  n11 : ℚ
  n12 : ℚ
  n13 : ℚ
  n14 : ℚ
  n21 : ℚ
  n22 : ℚ
  n23 : ℚ
  n24 : ℚ
  n31 : ℚ
  n32 : ℚ
  n33 : ℚ
  n34 : ℚ
  n41 : ℚ
  n42 : ℚ
  n43 : ℚ
  n44 : ℚ
  deriving DecidableEq, Repr

/-- `new THREE.Matrix4()`: the identity matrix (line 190). -/
def Matrix4.identityM : Matrix4 :=
  { n11 := 1, n12 := 0, n13 := 0, n14 := 0
    n21 := 0, n22 := 1, n23 := 0, n24 := 0
    n31 := 0, n32 := 0, n33 := 1, n34 := 0
    n41 := 0, n42 := 0, n43 := 0, n44 := 1 }

/-- `Matrix4.makeRotationAxis(axis, angle)`: `this.set(...)` with the
axis-angle (Rodrigues) entries.  `set` REPLACES the whole matrix, so the
previous contents `_prev` are discarded — this is the overwriting
behaviour of the three successive calls on lines 193, 196, 199.  The
cosine and sine of the angle enter as the opaque parameters `c` and `s`
(in the program, `Math.cos(0.001)` and `Math.sin(0.001)`). -/
def Matrix4.makeRotationAxisSet (_prev : Matrix4) (x y z c s : ℚ) : Matrix4 :=
  let t := 1 - c
  let tx := t * x
  let ty := t * y
  { n11 := tx * x + c,     n12 := tx * y - s * z, n13 := tx * z + s * y, n14 := 0
    n21 := tx * y + s * z, n22 := ty * y + c,     n23 := ty * z - s * x, n24 := 0
    n31 := tx * z - s * y, n32 := ty * z + s * x, n33 := t * z * z + c,  n34 := 0
    n41 := 0,              n42 := 0,              n43 := 0,              n44 := 1 }

/-- `Matrix3.setFromMatrix4(m)`: copies the upper-left 3×3 block. -/
def Matrix3.setFromMatrix4 (m : Matrix4) : Matrix3 :=
  { n11 := m.n11, n12 := m.n12, n13 := m.n13
    n21 := m.n21, n22 := m.n22, n23 := m.n23
    n31 := m.n31, n32 := m.n32, n33 := m.n33 }

/-- Lines 190-199 of `src/index.ts`: a fresh `Matrix4` on which
`makeRotationAxis` is called for the X, the Y and then the Z axis, each
call into the same matrix variable. -/
def rotationMatrix4Built (c s : ℚ) : Matrix4 :=
  let m := Matrix4.identityM
  let m := m.makeRotationAxisSet 1 0 0 c s
  let m := m.makeRotationAxisSet 0 1 0 c s
  let m := m.makeRotationAxisSet 0 0 1 c s
  m

/-- Line 202: `new THREE.Matrix3().setFromMatrix4(rotationMatrix4)`. -/
def rotationMatrix3Built (c s : ℚ) : Matrix3 :=
  Matrix3.setFromMatrix4 (rotationMatrix4Built c s)

/-- Stated from the spec's words, for comparison: the 3×3 rotation about
the Z axis alone, with cosine `c` and sine `s` of the angle (the
upper-left block of `Matrix4.makeRotationZ`). -/
def makeRotationZ3 (c s : ℚ) : Matrix3 :=
  { n11 := c, n12 := -s, n13 := 0
    n21 := s, n22 := c,  n23 := 0
    n31 := 0, n32 := 0,  n33 := 1 }

/-- `Vector3.setFromMatrixPosition(m)`: the translation column of the
matrix, elements `e[12], e[13], e[14]`, i.e. `n14, n24, n34` in
row-column names. -/
def Matrix4.positionColumn (m : Matrix4) : Vector3 :=
  { x := m.n14, y := m.n24, z := m.n34 }

/-- `OBB.applyMatrix4(matrix)` from `three/examples/jsm/math/OBB`, in the
unit-scale case.  The library computes the lengths `sx`, `sy`, `sz` of the
three basis columns with `Math.sqrt`, divides the rotation part by them,
and multiplies the half sizes by their absolute values; for every matrix
this program passes (the owner group's world matrix, a pure rotation with
unit columns and positive determinant) those lengths are 1, so the
normalization and the half-size scaling are identities, leaving:

    this.rotation.multiply( rotationMatrix.setFromMatrix4( matrix ) );
    v1.setFromMatrixPosition( matrix );
    this.center.add( v1 );

Note the center is only offset by the matrix's translation column; it is
never mapped through the rotation part. -/
def OBB.applyMatrix4U (b : OBB) (m : Matrix4) : OBB :=
  { center := b.center.add m.positionColumn
    halfSize := b.halfSize
    rotation := b.rotation.multiply (Matrix3.setFromMatrix4 m) }

/-- The per-tick refresh of the oriented box, line 221 of `src/index.ts`:
`modelGroup.userData.obb.applyMatrix4(modelGroup.matrixWorld)`.  The owner
group's world matrix is the only other input; the matrix
`rotationMatrix3` built on lines 190-202 is not referenced anywhere in
`animateObjects`. -/
def updateOrientedBox (b : OBB) (ownerWorld : Matrix4) : OBB :=
  b.applyMatrix4U ownerWorld

/-- A unit box at the origin with identity orientation, a concrete state
for the C2 counterexample. -/
def unitBox : OBB :=
  { center := { x := 0, y := 0, z := 0 }
    halfSize := { x := 1, y := 1, z := 1 }
    rotation := Matrix3.identityM }

/-- A world transform that is a pure translation by (1,0,0): rotation part
identity, unit columns, determinant 1, so the unit-scale case of
`applyMatrix4` is exact on it. -/
def translateX1 : Matrix4 :=
  { n11 := 1, n12 := 0, n13 := 0, n14 := 1
    n21 := 0, n22 := 1, n23 := 0, n24 := 0
    n31 := 0, n32 := 0, n33 := 1, n34 := 0
    n41 := 0, n42 := 0, n43 := 0, n44 := 1 }

/-- A world transform that is a pure rotation about Z with cosine 3/5 and
sine 4/5: exactly rational, unit columns, determinant 1, zero translation
column — the same shape of matrix (pure rotation) the program's owner
group world matrix has. -/
def rotZ345M : Matrix4 :=
  { n11 := 3/5, n12 := -(4/5), n13 := 0, n14 := 0
    n21 := 4/5, n22 := 3/5,    n23 := 0, n24 := 0
    n31 := 0,   n32 := 0,      n33 := 1, n34 := 0
    n41 := 0,   n42 := 0,      n43 := 0, n44 := 1 }

/-- The spec's scenario box: axis-aligned (identity rotation), centered at
the origin, half-extents (5,5,5). -/
def scenarioBox : OBB :=
  { center := { x := 0, y := 0, z := 0 }
    halfSize := { x := 5, y := 5, z := 5 }
    rotation := Matrix3.identityM }

/-- The spec's scenario sphere of radius 1 centered at (0,0,6). -/
def sphereAtZ6 : Sphere := { center := { x := 0, y := 0, z := 6 }, radius := 1 }

/-- The spec's scenario sphere of radius 1 centered at (0,0,5.5). -/
def sphereAtZ55 : Sphere :=
  { center := { x := 0, y := 0, z := 11/2 }, radius := 1 }

/-- Unfolding lemma for `advance` on an explicit state. -/
lemma advance_eq (p s : ℚ) :
    advance ⟨p, s⟩ =
      if p + s > 150 ∨ p + s < -150
      then { xPosition := p + s, speed := -s }
      else { xPosition := p + s, speed := s } := by
  show (if p + s > 150 ∨ p + s < -150
      then ({ xPosition := p + s, speed := s * (-1) } : Body)
      else { xPosition := p + s, speed := s }) = _
  rw [mul_neg_one]

/-- C1: one call of `advance` returns position `p + s`, never clamped, and
negates the speed exactly when the already-advanced position `p + s` is
strictly greater than 150 or strictly less than -150. -/
theorem C1_advance_step (p s : ℚ) :
    (advance ⟨p, s⟩).xPosition = p + s ∧
    (advance ⟨p, s⟩).speed = (if p + s > 150 ∨ p + s < -150 then -s else s) ∧
    (s ≠ 0 →
      ((advance ⟨p, s⟩).speed = -s ↔ (p + s > 150 ∨ p + s < -150))) := by
  rw [advance_eq]
  split
  · exact ⟨rfl, rfl, fun _ => iff_of_true rfl (by assumption)⟩
  · refine ⟨rfl, rfl, fun hs => ?_⟩
    constructor
    · intro h
      have hs0 : s = 0 := by
        have : s = -s := h
        linarith
      exact absurd hs0 hs
    · intro h
      exact absurd h (by assumption)

/-- Witness for C1 at the concrete input `p = 150`, `s = 0.5`: the advanced
position is 150.5, out of range, so the speed is negated. -/
theorem C1_advance_step_witness :
    (advance ⟨150, 1/2⟩).xPosition = 150 + 1/2 ∧
    (advance ⟨150, 1/2⟩).speed =
      (if (150 : ℚ) + 1/2 > 150 ∨ (150 : ℚ) + 1/2 < -150 then -(1/2) else 1/2) ∧
    ((advance ⟨150, 1/2⟩).speed = -(1/2) ↔
      ((150 : ℚ) + 1/2 > 150 ∨ (150 : ℚ) + 1/2 < -150)) :=
  ⟨(C1_advance_step 150 (1/2)).1, (C1_advance_step 150 (1/2)).2.1,
    (C1_advance_step 150 (1/2)).2.2 (by norm_num)⟩

/-- C6 counterexample: the position 150 satisfies `-150 ≤ 150 ≤ 150`, the
speed 0.5 is positive, yet `advance` from that state returns a negative
speed (it returns -0.5): the speed sign is not left unchanged for every
in-range position. -/
theorem C6_counterexample :
    (-150 : ℚ) ≤ 150 ∧ (150 : ℚ) ≤ 150 ∧ (0 : ℚ) < 1/2 ∧
    (advance ⟨150, 1/2⟩).speed < 0 ∧ (advance ⟨150, 1/2⟩).speed = -(1/2) := by
  norm_num [advance]

/-- C6 amended: whenever the advanced position `p + s` (rather than the
starting position `p`) lies within `[-150, 150]`, `advance` leaves the speed
unchanged, in particular its sign. -/
theorem C6_amended_no_flip_in_range (p s : ℚ)
    (hlo : -150 ≤ p + s) (hhi : p + s ≤ 150) :
    (advance ⟨p, s⟩).speed = s := by
  have h : ¬(p + s > 150 ∨ p + s < -150) := by
    push_neg
    exact ⟨hhi, hlo⟩
  rw [advance_eq, if_neg h]

/-- Witness for the amended C6 at `p = 0`, `s = 0.5`: the advanced position
0.5 is in range and the speed is unchanged. -/
theorem C6_amended_no_flip_in_range_witness :
    (-150 : ℚ) ≤ 0 + 1/2 ∧ (0 : ℚ) + 1/2 ≤ 150 ∧
    (advance ⟨0, 1/2⟩).speed = 1/2 :=
  ⟨by norm_num, by norm_num,
    C6_amended_no_flip_in_range 0 (1/2) (by norm_num) (by norm_num)⟩

/-- C7: whenever `advance` produces a position strictly above 150 or
strictly below -150, the speed it outputs (which is the speed fed to the
next call) is the negation of the incoming speed; in particular a positive
incoming speed comes out negative and vice versa. -/
theorem C7_reflection (p s : ℚ)
    (h : (advance ⟨p, s⟩).xPosition > 150 ∨ (advance ⟨p, s⟩).xPosition < -150) :
    (advance ⟨p, s⟩).speed = -s ∧
    (0 < s → (advance ⟨p, s⟩).speed < 0) ∧
    (s < 0 → 0 < (advance ⟨p, s⟩).speed) := by
  have hx : (advance ⟨p, s⟩).xPosition = p + s := by
    rw [advance_eq]
    split <;> rfl
  rw [hx] at h
  have hs : (advance ⟨p, s⟩).speed = -s := by
    rw [advance_eq, if_pos h]
  refine ⟨hs, ?_, ?_⟩
  · intro hpos
    rw [hs]
    linarith
  · intro hneg
    rw [hs]
    linarith

/-- Witness for C7 at the spec's own example `p = 149.6`, `s = 0.5`: the
advanced position is 150.1 > 150 and the output speed is -0.5. -/
theorem C7_reflection_witness :
    ((advance ⟨748/5, 1/2⟩).xPosition > 150 ∨
      (advance ⟨748/5, 1/2⟩).xPosition < -150) ∧
    (advance ⟨748/5, 1/2⟩).speed = -(1/2) := by
  have h : (advance ⟨748/5, 1/2⟩).xPosition > 150 ∨
      (advance ⟨748/5, 1/2⟩).xPosition < -150 := by
    norm_num [advance]
  exact ⟨h, (C7_reflection (748/5) (1/2) h).1⟩

lemma bodyInv_initial : BodyInv initialBody := by
  refine ⟨Or.inl rfl, ?_, ?_, ?_, ?_⟩ <;> norm_num [initialBody]

lemma bodyInv_advance {b : Body} (h : BodyInv b) : BodyInv (advance b) := by
  obtain ⟨hsp, hlo, hhi, hover, hunder⟩ := h
  obtain ⟨p, s⟩ := b
  simp only at hsp hlo hhi hover hunder
  rw [advance_eq]
  rcases hsp with hs | hs <;> subst hs <;> split <;>
    rename_i hcond
  · -- speed 1/2, bounce: the advanced position exceeded a bound
    have hple : p ≤ 150 := by
      by_contra hgt
      push_neg at hgt
      exact absurd (hover hgt) (by norm_num)
    rcases hcond with hc | hc
    · exact ⟨Or.inr rfl, by constructor <;> [linarith; exact
        ⟨by linarith, fun _ => rfl, fun hlt => absurd hlt (by push_neg; linarith)⟩]⟩
    · exact absurd hc (by push_neg; linarith)
  · -- speed 1/2, no bounce
    push_neg at hcond
    exact ⟨Or.inl rfl, by linarith [hcond.2], by linarith [hcond.1],
      fun hgt => absurd hgt (by push_neg; exact hcond.1),
      fun _ => rfl⟩
  · -- speed -1/2, bounce
    have hpge : -150 ≤ p := by
      by_contra hlt
      push_neg at hlt
      exact absurd (hunder hlt) (by norm_num)
    rcases hcond with hc | hc
    · exact absurd hc (by push_neg; linarith)
    · refine ⟨Or.inl (by norm_num), by linarith, by linarith, ?_, fun _ => by norm_num⟩
      intro hgt
      exact absurd hgt (by push_neg; linarith)
  · -- speed -1/2, no bounce
    push_neg at hcond
    exact ⟨Or.inr rfl, by linarith [hcond.2], by linarith [hcond.1],
      fun hgt => absurd hgt (by push_neg; exact hcond.1),
      fun hlt => absurd hlt (by push_neg; exact hcond.2)⟩

lemma bodyInv_atTick (n : ℕ) : BodyInv (bodyAtTick n) := by
  induction n with
  | zero => exact bodyInv_initial
  | succ k ih =>
      rw [bodyAtTick, Function.iterate_succ_apply']
      exact bodyInv_advance ih

lemma vec_sub_add_cancel (p q t : Vector3) :
    (p.add t).sub (q.add t) = p.sub q := by
  simp only [Vector3.add, Vector3.sub, Vector3.mk.injEq]
  refine ⟨by ring, by ring, by ring⟩

lemma distSq_add_right (a b t : Vector3) :
    (a.add t).distanceToSquared (b.add t) = a.distanceToSquared b := by
  simp only [Vector3.add, Vector3.distanceToSquared]
  ring

lemma clampPoint_translate (b : OBB) (p t : Vector3) :
    OBB.clampPoint
      { center := b.center.add t, halfSize := b.halfSize, rotation := b.rotation }
      (p.add t) = (b.clampPoint p).add t := by
  simp only [OBB.clampPoint]
  rw [vec_sub_add_cancel]
  simp only [Vector3.add, Vector3.smul, Vector3.mk.injEq]
  refine ⟨by ring, by ring, by ring⟩

/-- C4: `intersectsSphere` returns `true` exactly when the squared distance
from the sphere center to the clamped projection of that center onto the
box (per axis, within the half-extent interval) is at most the squared
radius; in particular exact tangency (squared distance equal to squared
radius) reports an intersection. -/
theorem C4_intersects_iff (b : OBB) (s : Sphere) :
    (b.intersectsSphere s = true ↔
      (b.clampPoint s.center).distanceToSquared s.center ≤ s.radius * s.radius) ∧
    ((b.clampPoint s.center).distanceToSquared s.center = s.radius * s.radius →
      b.intersectsSphere s = true) := by
  constructor
  · simp [OBB.intersectsSphere]
  · intro h
    simp only [OBB.intersectsSphere, decide_eq_true_eq]
    exact le_of_eq h

/-- Witness for C4 at the tangent configuration: the (5,5,5) box at the
origin and the unit sphere at (0,0,6) are at squared distance exactly 1,
and the test reports an intersection. -/
theorem C4_intersects_iff_witness :
    (scenarioBox.clampPoint sphereAtZ6.center).distanceToSquared
        sphereAtZ6.center = sphereAtZ6.radius * sphereAtZ6.radius ∧
    scenarioBox.intersectsSphere sphereAtZ6 = true := by
  have h : (scenarioBox.clampPoint sphereAtZ6.center).distanceToSquared
      sphereAtZ6.center = sphereAtZ6.radius * sphereAtZ6.radius := by
    norm_num [scenarioBox, sphereAtZ6, OBB.clampPoint, clampQ,
      Vector3.sub, Vector3.add, Vector3.smul, Vector3.dot,
      Vector3.distanceToSquared, Matrix3.identityM,
      Matrix3.colX, Matrix3.colY, Matrix3.colZ, min_def, max_def]
  exact ⟨h, (C4_intersects_iff scenarioBox sphereAtZ6).2 h⟩

/-- C5 counterexample: contrary to the claimed "no intersection", the
(5,5,5) box at the origin and the radius-1 sphere at (0,0,6) are exactly
tangent (squared distance 1 = radius²), and `intersectsSphere` uses `≤`,
so it returns `true` at this input. -/
theorem C5_counterexample :
    scenarioBox.intersectsSphere sphereAtZ6 = true := by
  norm_num [scenarioBox, sphereAtZ6, OBB.intersectsSphere, OBB.clampPoint,
    clampQ, Vector3.sub, Vector3.add, Vector3.smul, Vector3.dot,
    Vector3.distanceToSquared, Matrix3.identityM,
    Matrix3.colX, Matrix3.colY, Matrix3.colZ, min_def, max_def]

/-- C5 amended: for the axis-aligned box centered at the origin with
half-extents (5,5,5), the radius-1 sphere at (0,0,6) is exactly tangent
and reports intersecting (closed boundary), and the radius-1 sphere at
(0,0,5.5) also reports intersecting. -/
theorem C5_amended_scenario :
    scenarioBox.intersectsSphere sphereAtZ6 = true ∧
    scenarioBox.intersectsSphere sphereAtZ55 = true := by
  constructor <;>
    norm_num [scenarioBox, sphereAtZ6, sphereAtZ55, OBB.intersectsSphere,
      OBB.clampPoint, clampQ, Vector3.sub, Vector3.add, Vector3.smul,
      Vector3.dot, Vector3.distanceToSquared, Matrix3.identityM,
      Matrix3.colX, Matrix3.colY, Matrix3.colZ, min_def, max_def]

/-- C8: translating the box center and the sphere center by the same
vector leaves the verdict of `intersectsSphere` unchanged. -/
theorem C8_translation_invariance (b : OBB) (s : Sphere) (t : Vector3) :
    OBB.intersectsSphere
      { center := b.center.add t, halfSize := b.halfSize, rotation := b.rotation }
      { center := s.center.add t, radius := s.radius }
      = b.intersectsSphere s := by
  simp only [OBB.intersectsSphere]
  rw [clampPoint_translate b s.center t, distSq_add_right]

/-- C3: the matrix built by the three successive `makeRotationAxis` calls
equals the rotation about the Z axis alone (for any cosine/sine values `c`,
`s` of the shared 0.001-radian angle), and the final Z-axis call yields
this result regardless of what the matrix held before — the X-axis and
Y-axis constructions are each overwritten by the next. -/
theorem C3_only_z_rotation_survives (c s : ℚ) :
    rotationMatrix3Built c s = makeRotationZ3 c s ∧
    (∀ m : Matrix4,
      Matrix3.setFromMatrix4 (m.makeRotationAxisSet 0 0 1 c s) =
        rotationMatrix3Built c s) := by
  constructor
  · simp only [rotationMatrix3Built, rotationMatrix4Built,
      Matrix4.makeRotationAxisSet, Matrix3.setFromMatrix4, makeRotationZ3,
      Matrix3.mk.injEq]
    refine ⟨by ring, by ring, by ring, by ring, by ring, by ring, by ring,
      by ring, by ring⟩
  · intro m
    rfl

/-- C2 counterexample: the actual per-tick box update accumulates onto the
box's previous state instead of reconstructing it from the owner's world
transform, and does not involve the fixed incremental rotation matrix.
With the owner world transform a pure translation by (1,0,0): applying the
update twice moves the center to (2,0,0) while a single application leaves
it at (1,0,0) — the center depends on the box's previous mutated state —
and the box's rotation comes back unchanged even though the claimed
composition with the (nontrivial) incremental rotation would have changed
it.  The accumulation also shows on a pure-rotation world transform, the
shape the program actually passes: updating the unit box with the 3-4-5
Z-rotation twice yields the squared rotation, not the same orientation a
reconstruction from the unchanged owner transform would give. -/
theorem C2_counterexample :
    ((updateOrientedBox (updateOrientedBox unitBox translateX1)
        translateX1).center ≠
      (updateOrientedBox unitBox translateX1).center ∧
    (updateOrientedBox unitBox translateX1).rotation = unitBox.rotation) ∧
    (updateOrientedBox (updateOrientedBox unitBox rotZ345M)
        rotZ345M).rotation ≠
      (updateOrientedBox unitBox rotZ345M).rotation := by
  refine ⟨⟨?_, ?_⟩, ?_⟩
  · have h1 : (updateOrientedBox unitBox translateX1).center =
        { x := 1, y := 0, z := 0 } := by
      norm_num [updateOrientedBox, OBB.applyMatrix4U, Matrix4.positionColumn,
        Vector3.add, unitBox, translateX1, Vector3.mk.injEq]
    have h2 : (updateOrientedBox (updateOrientedBox unitBox translateX1)
        translateX1).center = { x := 2, y := 0, z := 0 } := by
      norm_num [updateOrientedBox, OBB.applyMatrix4U, Matrix4.positionColumn,
        Vector3.add, unitBox, translateX1, Vector3.mk.injEq, Matrix3.multiply,
        Matrix3.setFromMatrix4, Matrix3.identityM]
    rw [h1, h2]
    simp only [ne_eq, Vector3.mk.injEq]
    norm_num
  · norm_num [updateOrientedBox, OBB.applyMatrix4U, Matrix3.multiply,
      Matrix3.setFromMatrix4, Matrix3.identityM, unitBox, translateX1,
      Matrix3.mk.injEq]
  · have h1 : (updateOrientedBox unitBox rotZ345M).rotation =
        { n11 := 3/5, n12 := -(4/5), n13 := 0
          n21 := 4/5, n22 := 3/5,    n23 := 0
          n31 := 0,   n32 := 0,      n33 := 1 } := by
      norm_num [updateOrientedBox, OBB.applyMatrix4U, Matrix3.multiply,
        Matrix3.setFromMatrix4, Matrix3.identityM, unitBox, rotZ345M,
        Matrix3.mk.injEq]
    have h2 : (updateOrientedBox (updateOrientedBox unitBox rotZ345M)
        rotZ345M).rotation =
        { n11 := -(7/25), n12 := -(24/25), n13 := 0
          n21 := 24/25,   n22 := -(7/25),  n23 := 0
          n31 := 0,       n32 := 0,        n33 := 1 } := by
      norm_num [updateOrientedBox, OBB.applyMatrix4U, Matrix3.multiply,
        Matrix3.setFromMatrix4, Matrix3.identityM, unitBox, rotZ345M,
        Matrix3.mk.injEq]
    rw [h1, h2]
    simp only [ne_eq, Matrix3.mk.injEq]
    norm_num

/-- C2 amended: each per-tick call of the box update applies the owner
group's world matrix to the box's current state: the rotation is
right-multiplied by the rotation part (upper-left 3×3 block) of the
owner's world matrix — not by the fixed incremental matrix
`rotationMatrix3`, which `animateObjects` never reads — the center is
offset by the matrix's translation column only (so the program's
pure-rotation world matrix never moves it), and the half sizes are kept;
successive calls therefore accumulate onto the box's previous state
rather than reconstructing it from the owner transform alone. -/
theorem C2_amended_update (b : OBB) (m : Matrix4) :
    (updateOrientedBox b m).rotation =
      b.rotation.multiply (Matrix3.setFromMatrix4 m) ∧
    (updateOrientedBox b m).center = b.center.add m.positionColumn ∧
    (updateOrientedBox b m).halfSize = b.halfSize ∧
    (updateOrientedBox (updateOrientedBox b m) m).rotation =
      (b.rotation.multiply (Matrix3.setFromMatrix4 m)).multiply
        (Matrix3.setFromMatrix4 m) :=
  ⟨rfl, rfl, rfl, rfl⟩

/-- C9: each per-tick `updateSphere` sets the bounding sphere center to the
owner's current position and leaves the radius untouched, and along every
run of the per-tick update the bounding sphere's radius stays at its
creation value 1; moreover after every tick the center coincides with the
mesh position (no velocity-based prediction enters). -/
theorem C9_sphere_center_and_radius :
    (∀ (s : Sphere) (p : Vector3),
      (updateSphere s p).center = p ∧ (updateSphere s p).radius = s.radius) ∧
    (∀ n : ℕ,
      (sphereSystemTick^[n] initialSphereSystem).boundingSphere.radius = 1) ∧
    (∀ n : ℕ,
      (sphereSystemTick^[n + 1] initialSphereSystem).boundingSphere.center =
        (sphereSystemTick^[n + 1] initialSphereSystem).spherePos) := by
  refine ⟨fun s p => ⟨rfl, rfl⟩, fun n => ?_, fun n => ?_⟩
  · induction n with
    | zero => rfl
    | succ k ih =>
        rw [Function.iterate_succ_apply']
        exact ih
  · rw [Function.iterate_succ_apply']
    rfl

/-- C10: every state reachable from the initial state (position 0, speed
0.5) by iterating the per-tick `advance` has speed 0.5 or -0.5, and its
position lies in the closed interval [-150.5, 150.5]. -/
theorem C10_reachable_invariant (n : ℕ) :
    ((bodyAtTick n).speed = 1/2 ∨ (bodyAtTick n).speed = -(1/2)) ∧
    -(301/2) ≤ (bodyAtTick n).xPosition ∧ (bodyAtTick n).xPosition ≤ 301/2 := by
  obtain ⟨hsp, hlo, hhi, _, _⟩ := bodyInv_atTick n
  exact ⟨hsp, hlo, hhi⟩

end Glb
